import Mathlib

/-!
Shallow embedding of the concurrent-session core of `app.py` (Poiosn/chess):
the per-room match state, the clock settlement paths
(`update_time_before_move`, `on_get_time`, the `timeout_watcher` sweep body),
the transition handlers (`on_move`, `bot_move`, `on_resign`, `on_offer_draw`,
`on_respond_draw`, `on_reset_game`, `on_create_room`), and a lock-discipline
access trace for each handler.

The move-legality oracle (the external python-chess library) is out of the
repository; it is represented as an abstract `Oracle` capability record, as
the spec's §6 prescribes.  Wall time is modelled as ℤ (integer time units; the claims are order-theoretic, nothing depends on fractional durations); handlers receive the
current time `now` instead of calling `time.time()`.  Transport emissions
(socket `emit` / broadcast calls) are returned as an explicit `Emit` list;
persistence calls (best effort, logged and swallowed in the source) and
player-identity bookkeeping are outside the modelled core and are dropped.
-/

namespace ChessApp

/-- python-chess piece-type constants used by the promotion table. -/
def QUEEN : Nat := 5

def ROOK : Nat := 4

def BISHOP : Nat := 3

def KNIGHT : Nat := 2

/-- chess.square(file_index, rank_index) = rank_index * 8 + file_index. -/
def square (file rank : Nat) : Nat := rank * 8 + file

/-- A chess.Move: origin square, target square, optional promotion piece type. -/
structure Move where
  from_sq : Nat
  to_sq : Nat
  promotion : Option Nat := none
deriving DecidableEq, Repr

/-- The external rules oracle (python-chess `Board` capabilities used by app.py).
`turn` is `board.turn`: `true` means white to move.  `initial` is `chess.Board()`. -/
structure Oracle (B : Type) where
  turn : B → Bool
  legal_moves : B → List Move
  push : B → Move → B
  is_checkmate : B → Bool
  is_stalemate : B → Bool
  is_insufficient_material : B → Bool
  can_claim_threefold_repetition : B → Bool
  is_fifty_moves : B → Bool
  is_game_over : B → Bool
  initial : B

/-- The per-room mutable record `games[room]` of app.py (board, clocks,
outcome, draw offer, bot flags, move counter).  `winner`, `reason`,
`draw_offer` and `bot_color` hold the same string values the source stores
(`"white"`, `"black"`, `"draw"`, `"timeout"`, ...), with Python `None` as
`Option.none`.  The socket ids in `players` and the `playerNames` map are
transport-level and carry no data the modelled transitions read. -/
structure Game (B : Type) where
  board : B
  whiteTime : ℤ
  blackTime : ℤ
  lastUpdate : ℤ
  winner : Option String
  reason : Option String
  bot : Bool
  bot_color : Option String
  draw_offer : Option String
  moveCount : Nat
deriving DecidableEq, Repr

/-- The socket emissions a handler performs (transport layer output). -/
inductive Emit where
  | errorMsg (msg : String)
  | gameUpdate
  | timeUpdate (whiteTime blackTime : ℤ)
  | drawOffered (fromColor : String)
  | drawDeclined
  | roomCreated (room : String)
deriving DecidableEq, Repr

/-- Python truthiness of the `winner` field (`if g["winner"]:`): the stored
winner strings are all non-empty, so truthiness is `isSome`. -/
def winnerSet {B : Type} (g : Game B) : Bool := g.winner.isSome

/-- Python `max(a, b)` on numbers (used as `max(0.0, remaining - elapsed)`),
written with an explicit comparison so it evaluates. -/
def pymax (a b : ℤ) : ℤ := if a ≤ b then b else a

/-- app.py lines 397-414, `update_time_before_move(g)`: settle elapsed time
against the side to move, clamp at zero, flag a timeout if the clock reached
exactly zero and no winner is recorded, then advance `lastUpdate`. -/
def update_time_before_move {B : Type} (o : Oracle B) (now : ℤ) (g : Game B) :
    Game B :=
  let elapsed := now - g.lastUpdate
  let g1 :=
    if o.turn g.board then
      let g2 := { g with whiteTime := pymax 0 (g.whiteTime - elapsed) }
      if g2.whiteTime = 0 ∧ ¬ winnerSet g2 then
        { g2 with winner := some "black", reason := some "timeout" }
      else g2
    else
      let g2 := { g with blackTime := pymax 0 (g.blackTime - elapsed) }
      if g2.blackTime = 0 ∧ ¬ winnerSet g2 then
        { g2 with winner := some "white", reason := some "timeout" }
      else g2
  { g1 with lastUpdate := now }

/-- app.py lines 416-447, `handle_checkmate_and_draw(g, room)`: record
checkmate for the side that just moved, or a rule-based draw.  Database
side effects dropped (best-effort persistence). -/
def handle_checkmate_and_draw {B : Type} (o : Oracle B) (g : Game B) :
    Game B :=
  if o.is_checkmate g.board then
    { g with winner := some (if ¬ o.turn g.board then "white" else "black"),
             reason := some "checkmate" }
  else if o.is_stalemate g.board || o.is_insufficient_material g.board
      || o.can_claim_threefold_repetition g.board || o.is_fifty_moves g.board then
    { g with winner := some "draw", reason := some "draw" }
  else g

/-- The payload of a `move` event: origin/destination in UI row/col
coordinates plus the optional promotion string. -/
structure MoveData where
  from_row : Nat
  from_col : Nat
  to_row : Nat
  to_col : Nat
  promotion : Option String := none
deriving DecidableEq, Repr

/-- Python truthiness of `data.get("promotion")`: absent or the empty string
is falsy. -/
def truthyStr : Option String → Bool
  | none => false
  | some s => s ≠ ""

/-- Python `str.lower()`, modelled character-wise (the promotion strings are
single ASCII letters). -/
def pyLower (s : String) : String := ⟨s.data.map Char.toLower⟩

/-- app.py lines 469-481 inside `on_move`: build the `chess.Move` from the
payload; a truthy promotion string is looked up (lower-cased) in the
{q,r,b,n} table with `chess.QUEEN` as the default. -/
def build_move (d : MoveData) : Move :=
  let from_sq := square d.from_col (7 - d.from_row)
  let to_sq := square d.to_col (7 - d.to_row)
  if truthyStr d.promotion then
    let p := pyLower (d.promotion.getD "")
    let prom :=
      if p = "q" then QUEEN
      else if p = "r" then ROOK
      else if p = "b" then BISHOP
      else if p = "n" then KNIGHT
      else QUEEN
    { from_sq := from_sq, to_sq := to_sq, promotion := some prom }
  else
    { from_sq := from_sq, to_sq := to_sq, promotion := none }

/-- app.py lines 449-515, `on_move(data)` for an existing room: under the
lock, settle the clock, reject if finished, reject an illegal move, otherwise
push the move, clear the draw offer and bump the counter; after releasing the
lock, run `handle_checkmate_and_draw` and broadcast.  The third component is
whether a bot background task is started (line 510-515). -/
def on_move {B : Type} (o : Oracle B) (now : ℤ) (d : MoveData) (g : Game B) :
    Game B × List Emit × Bool :=
  let g1 := update_time_before_move o now g
  if winnerSet g1 then (g1, [Emit.errorMsg "Game already finished"], false)
  else
    let mv := build_move d
    if mv ∈ o.legal_moves g1.board then
      let g2 := { g1 with board := o.push g1.board mv, draw_offer := none,
                          moveCount := g1.moveCount + 1 }
      let g3 := handle_checkmate_and_draw o g2
      let spawnBot := g3.bot && ¬ winnerSet g3
          && (g3.bot_color == some (if o.turn g3.board then "white" else "black"))
      (g3, [Emit.gameUpdate], spawnBot)
    else (g1, [Emit.errorMsg "Illegal move"], false)

/-- app.py lines 524-528, `bot_move` before the thinking sleep: under the
lock, settle the clock; if a winner is now recorded, broadcast and return
(the Bool is false when the task stops here, true when it proceeds to
sleep). -/
def bot_move_phase1 {B : Type} (o : Oracle B) (now : ℤ) (g : Game B) :
    Game B × List Emit × Bool :=
  let g1 := update_time_before_move o now g
  if winnerSet g1 then (g1, [Emit.gameUpdate], false)
  else (g1, [], true)

/-- app.py lines 532-561, `bot_move` after the thinking sleep: re-acquire the
lock, abort if the game is over or a winner was recorded meanwhile, otherwise
pick a legal move (`random.choice`, here by index `k`; an empty legal-move
list raises and the handler returns), push it, stamp `lastUpdate`, bump the
counter, then (outside the lock) run `handle_checkmate_and_draw` and
broadcast. -/
def bot_move_phase2 {B : Type} (o : Oracle B) (now : ℤ) (k : Nat)
    (g : Game B) : Game B × List Emit :=
  if o.is_game_over g.board || winnerSet g then (g, [])
  else
    match o.legal_moves g.board with
    | [] => (g, [])
    | m :: ms =>
      let mv := (m :: ms).get ⟨k % (m :: ms).length, Nat.mod_lt _ (Nat.succ_pos _)⟩
      let g1 := { g with board := o.push g.board mv, lastUpdate := now,
                         moveCount := g.moveCount + 1 }
      (handle_checkmate_and_draw o g1, [Emit.gameUpdate])

/-- app.py lines 619-641, `on_resign(data)` for an existing room: if a winner
is already recorded, return silently; otherwise record the opposite side as
winner with reason "resign" and broadcast. -/
def on_resign {B : Type} (color : String) (g : Game B) : Game B × List Emit :=
  if winnerSet g then (g, [])
  else
    ({ g with winner := some (if color = "white" then "black" else "white"),
              reason := some "resign" }, [Emit.gameUpdate])

/-- app.py lines 643-663, `on_offer_draw(data)`: if a winner is already
recorded, return silently; otherwise record the pending offer and notify the
other participants. -/
def on_offer_draw {B : Type} (from_color : String) (g : Game B) :
    Game B × List Emit :=
  if winnerSet g then (g, [])
  else ({ g with draw_offer := some from_color }, [Emit.drawOffered from_color])

/-- app.py lines 665-691, `on_respond_draw(data)`: with no check of the
recorded winner and no check that an offer is pending, `accept` records a
draw by agreement and broadcasts; otherwise the offer is cleared and a
decline is broadcast. -/
def on_respond_draw {B : Type} (accept : Bool) (g : Game B) :
    Game B × List Emit :=
  if accept then
    ({ g with winner := some "draw", reason := some "agreement" },
     [Emit.gameUpdate])
  else ({ g with draw_offer := none }, [Emit.drawDeclined])

/-- app.py lines 693-731, `on_reset_game(data)`: `time_control` is read from
the CURRENT `g["whiteTime"]` (the dict always has the key, so the `.get`
default 300.0 is dead); both clocks, the board, the outcome, the draw offer
and the move counter are re-initialised and a broadcast is sent. -/
def on_reset_game {B : Type} (o : Oracle B) (now : ℤ) (g : Game B) :
    Game B × List Emit :=
  let time_control := g.whiteTime
  ({ g with board := o.initial, whiteTime := time_control,
            blackTime := time_control, lastUpdate := now, winner := none,
            reason := none, draw_offer := none, moveCount := 0 },
   [Emit.gameUpdate])

/-- app.py lines 570-615: the body of one `timeout_watcher` iteration for one
room, executed under that room's lock: skip finished rooms; settle elapsed
time against the side to move; on a zero-crossing (`new_time == 0` while the
stored time was `> 0`) zero the clock, record the timeout outcome and
broadcast, continuing WITHOUT updating `lastUpdate`; otherwise store the
settled time and advance `lastUpdate`. -/
def timeout_watcher_step {B : Type} (o : Oracle B) (now : ℤ) (g : Game B) :
    Game B × List Emit :=
  if winnerSet g then (g, [])
  else
    let elapsed := now - g.lastUpdate
    if o.turn g.board then
      let new_time := pymax 0 (g.whiteTime - elapsed)
      if new_time = 0 ∧ g.whiteTime > 0 then
        ({ g with whiteTime := 0, winner := some "black",
                  reason := some "timeout" }, [Emit.gameUpdate])
      else ({ g with whiteTime := new_time, lastUpdate := now }, [])
    else
      let new_time := pymax 0 (g.blackTime - elapsed)
      if new_time = 0 ∧ g.blackTime > 0 then
        ({ g with blackTime := 0, winner := some "white",
                  reason := some "timeout" }, [Emit.gameUpdate])
      else ({ g with blackTime := new_time, lastUpdate := now }, [])

/-- app.py lines 328-395, `on_get_time(data)` for an existing room: if a
winner is recorded, emit the current times and stop; otherwise, under the
lock, settle elapsed time against the side to move, recording a timeout
outcome (and broadcasting) when the clock is exactly zero; finally emit the
times. -/
def on_get_time {B : Type} (o : Oracle B) (now : ℤ) (g : Game B) :
    Game B × List Emit :=
  if winnerSet g then (g, [Emit.timeUpdate g.whiteTime g.blackTime])
  else
    let elapsed := now - g.lastUpdate
    let g1 := { g with lastUpdate := now }
    let res :=
      if o.turn g1.board then
        let g2 := { g1 with whiteTime := pymax 0 (g1.whiteTime - elapsed) }
        if g2.whiteTime = 0 ∧ ¬ winnerSet g2 then
          ({ g2 with winner := some "black", reason := some "timeout" },
           [Emit.gameUpdate])
        else (g2, [])
      else
        let g2 := { g1 with blackTime := pymax 0 (g1.blackTime - elapsed) }
        if g2.blackTime = 0 ∧ ¬ winnerSet g2 then
          ({ g2 with winner := some "white", reason := some "timeout" },
           [Emit.gameUpdate])
        else (g2, [])
    (res.1, res.2 ++ [Emit.timeUpdate res.1.whiteTime res.1.blackTime])

/-- The in-memory session registry `games` of app.py, as an association list
with Python-dict lookup semantics (latest binding wins). -/
def Registry (B : Type) : Type := List (String × Game B)

/-- Dict lookup `games.get(room)`. -/
def registry_get {B : Type} (reg : Registry B) (room : String) :
    Option (Game B) :=
  (reg.find? (fun p => p.1 == room)).map Prod.snd

/-- Dict membership `room in games`. -/
def registry_mem {B : Type} (reg : Registry B) (room : String) : Bool :=
  (registry_get reg room).isSome

/-- Dict assignment `games[room] = g`: unconditional overwrite. -/
def registry_set {B : Type} (reg : Registry B) (room : String) (g : Game B) :
    Registry B :=
  (room, g) :: reg.filter (fun p => p.1 != room)

/-- app.py lines 194-208: the fresh per-room record built by
`on_create_room` (fresh board, both clocks at the configured control, no
winner, no draw offer, zero move counter, bot plays black). -/
def new_game {B : Type} (o : Oracle B) (time_control : ℤ) (is_bot : Bool) :
    Game B :=
  { board := o.initial
    whiteTime := time_control
    blackTime := time_control
    lastUpdate := 0
    winner := none
    reason := none
    bot := is_bot
    bot_color := if is_bot then some "black" else none
    draw_offer := none
    moveCount := 0 }

/-- app.py lines 181-237, `on_create_room(data)`: with NO check whether the
room already exists, assign a fresh game record to `games[room]` and emit
`room_created` to the caller.  (The `lastUpdate := time.time()` stamp is
normalised to 0 here; only the registry effect matters for the claims.) -/
def on_create_room {B : Type} (o : Oracle B) (reg : Registry B)
    (room : String) (is_bot : Bool) (time_control : ℤ) :
    Registry B × List Emit :=
  (registry_set reg room (new_game o time_control is_bot),
   [Emit.roomCreated room])

/-!
Lock-discipline traces.  Each handler's accesses to the Match State fields
(outcome, clocks, board, draw offer, move counter) are transcribed from the
source in program order, each tagged with whether the handler holds
`g["lock"]` at that point.  `send_game_update` / `export_state` reads the
board, the winner/reason pair and both clocks.
-/

/-- Match State fields named by the lock-discipline claim. -/
inductive Field where
  | board
  | whiteTime
  | blackTime
  | lastUpdate
  | winner
  | reason
  | draw_offer
  | moveCount
deriving DecidableEq, Repr

/-- One access to a Match State field: which field, read or write, and
whether the match's lock is held at that point in the handler. -/
structure Access where
  field : Field
  isWrite : Bool
  underLock : Bool
deriving DecidableEq, Repr

/-- Accesses by `update_time_before_move` (lines 397-414); it inherits the
caller's lock status `l`. -/
def update_time_accesses (l : Bool) : List Access :=
  [⟨.lastUpdate, false, l⟩, ⟨.board, false, l⟩,
   ⟨.whiteTime, false, l⟩, ⟨.whiteTime, true, l⟩,
   ⟨.winner, false, l⟩, ⟨.winner, true, l⟩, ⟨.reason, true, l⟩,
   ⟨.blackTime, false, l⟩, ⟨.blackTime, true, l⟩,
   ⟨.lastUpdate, true, l⟩]

/-- Accesses by `handle_checkmate_and_draw` (lines 416-447) at the caller's
lock status `l`: board queries, then the winner/reason writes. -/
def handle_end_accesses (l : Bool) : List Access :=
  [⟨.board, false, l⟩, ⟨.winner, true, l⟩, ⟨.reason, true, l⟩]

/-- Accesses by `send_game_update` / `export_state` (lines 112-166) at the
caller's lock status `l`. -/
def send_update_accesses (l : Bool) : List Access :=
  [⟨.board, false, l⟩, ⟨.winner, false, l⟩, ⟨.reason, false, l⟩,
   ⟨.whiteTime, false, l⟩, ⟨.blackTime, false, l⟩]

/-- `on_move` (lines 449-515): the settle, finished-check, legality check,
push, draw-offer clear and counter bump run under `with g["lock"]`;
`handle_checkmate_and_draw`, the broadcast and the bot-spawn check
(reading `winner`) run AFTER the lock is released. -/
def on_move_accesses : List Access :=
  update_time_accesses true
    ++ [⟨.winner, false, true⟩, ⟨.board, false, true⟩, ⟨.board, true, true⟩,
        ⟨.draw_offer, true, true⟩, ⟨.moveCount, true, true⟩]
    ++ handle_end_accesses false ++ send_update_accesses false
    ++ [⟨.winner, false, false⟩, ⟨.board, false, false⟩]

/-- `bot_move` (lines 517-561): both locked sections, then
`handle_checkmate_and_draw` and the broadcast after the lock is released. -/
def bot_move_accesses : List Access :=
  update_time_accesses true ++ [⟨.winner, false, true⟩]
    ++ [⟨.board, false, true⟩, ⟨.winner, false, true⟩, ⟨.board, true, true⟩,
        ⟨.lastUpdate, true, true⟩, ⟨.moveCount, true, true⟩]
    ++ handle_end_accesses false ++ send_update_accesses false

/-- `on_resign` (lines 619-641): no lock is acquired anywhere in the
handler. -/
def on_resign_accesses : List Access :=
  [⟨.winner, false, false⟩, ⟨.winner, true, false⟩, ⟨.reason, true, false⟩]
    ++ send_update_accesses false

/-- `on_offer_draw` (lines 643-663): no lock is acquired. -/
def on_offer_draw_accesses : List Access :=
  [⟨.winner, false, false⟩, ⟨.draw_offer, true, false⟩]

/-- `on_respond_draw` (lines 665-691): no lock is acquired. -/
def on_respond_draw_accesses : List Access :=
  [⟨.winner, true, false⟩, ⟨.reason, true, false⟩,
   ⟨.draw_offer, true, false⟩]
    ++ send_update_accesses false

/-- `on_reset_game` (lines 693-731): no lock is acquired. -/
def on_reset_accesses : List Access :=
  [⟨.whiteTime, false, false⟩, ⟨.board, true, false⟩,
   ⟨.whiteTime, true, false⟩, ⟨.blackTime, true, false⟩,
   ⟨.lastUpdate, true, false⟩, ⟨.winner, true, false⟩,
   ⟨.reason, true, false⟩, ⟨.draw_offer, true, false⟩,
   ⟨.moveCount, true, false⟩]
    ++ send_update_accesses false

/-- `timeout_watcher` per-room body (lines 570-615): everything, the
broadcast included, runs under `with g["lock"]`. -/
def timeout_watcher_accesses : List Access :=
  [⟨.winner, false, true⟩, ⟨.lastUpdate, false, true⟩, ⟨.board, false, true⟩,
   ⟨.whiteTime, false, true⟩, ⟨.whiteTime, true, true⟩,
   ⟨.winner, true, true⟩, ⟨.reason, true, true⟩,
   ⟨.blackTime, false, true⟩, ⟨.blackTime, true, true⟩,
   ⟨.lastUpdate, true, true⟩]
    ++ send_update_accesses true

/-- `on_get_time` (lines 328-395): the initial winner check and time reads
happen BEFORE the lock is taken, the settle-and-flag section under the lock,
and the final time reads after release. -/
def on_get_time_accesses : List Access :=
  [⟨.winner, false, false⟩, ⟨.whiteTime, false, false⟩,
   ⟨.blackTime, false, false⟩]
    ++ [⟨.lastUpdate, false, true⟩, ⟨.lastUpdate, true, true⟩,
        ⟨.board, false, true⟩, ⟨.whiteTime, false, true⟩,
        ⟨.whiteTime, true, true⟩, ⟨.winner, false, true⟩,
        ⟨.winner, true, true⟩, ⟨.reason, true, true⟩,
        ⟨.blackTime, false, true⟩, ⟨.blackTime, true, true⟩]
    ++ send_update_accesses true
    ++ [⟨.whiteTime, false, false⟩, ⟨.blackTime, false, false⟩]

/-- The transitions named by the lock-discipline claim, with their access
traces. -/
def transition_traces : List (String × List Access) :=
  [("on_move", on_move_accesses),
   ("bot_move", bot_move_accesses),
   ("on_resign", on_resign_accesses),
   ("on_offer_draw", on_offer_draw_accesses),
   ("on_respond_draw", on_respond_draw_accesses),
   ("on_reset_game", on_reset_accesses),
   ("timeout_watcher", timeout_watcher_accesses),
   ("on_get_time", on_get_time_accesses)]

/-!
A concrete toy instance of the external rules oracle, used only to evaluate
the handlers on closed inputs.  The board records the moves pushed so far;
the side to move alternates; one fixed move is always legal; no terminal
condition ever holds.
-/

/-- Toy board: the list of moves applied so far. -/
structure SB where
  moves : List Move
deriving DecidableEq, Repr

/-- Toy rules oracle over `SB`. -/
def sbOracle : Oracle SB :=
  { turn := fun b => b.moves.length % 2 == 0
    legal_moves := fun _ => [{ from_sq := 0, to_sq := 1, promotion := none }]
    push := fun b m => ⟨b.moves ++ [m]⟩
    is_checkmate := fun _ => false
    is_stalemate := fun _ => false
    is_insufficient_material := fun _ => false
    can_claim_threefold_repetition := fun _ => false
    is_fifty_moves := fun _ => false
    is_game_over := fun _ => false
    initial := ⟨[]⟩ }

/-- Relation between a prior and a later clock state: neither remaining time
is negative, neither increased, and a remaining time that was exactly zero is
still zero. -/
def clockOk {B : Type} (g g' : Game B) : Prop :=
  0 ≤ g'.whiteTime ∧ 0 ≤ g'.blackTime
    ∧ g'.whiteTime ≤ g.whiteTime ∧ g'.blackTime ≤ g.blackTime
    ∧ (g.whiteTime = 0 → g'.whiteTime = 0)
    ∧ (g.blackTime = 0 → g'.blackTime = 0)

instance {B : Type} (g g' : Game B) : Decidable (clockOk g g') := by
  unfold clockOk; infer_instance

/-- The three clock-settling code paths of app.py: the pre-move settlement
in `on_move`/`bot_move`, the sweeper tick body, and the on-demand time
query. -/
inductive SettleOp where
  | preMove
  | sweeperTick
  | getTime
deriving DecidableEq, Repr

/-- Run one settling path at wall time `now`, keeping only the state. -/
def applySettle {B : Type} (o : Oracle B) (op : SettleOp) (now : ℤ)
    (g : Game B) : Game B :=
  match op with
  | .preMove => update_time_before_move o now g
  | .sweeperTick => (timeout_watcher_step o now g).1
  | .getTime => (on_get_time o now g).1

/-- Run a sequence of settling paths, each with its wall-clock instant. -/
def applySettles {B : Type} (o : Oracle B) (ops : List (SettleOp × ℤ))
    (g : Game B) : Game B :=
  ops.foldl (fun g op => applySettle o op.1 op.2 g) g

/-!
Concrete fixture states over the toy oracle, used by the closed theorems.
-/

/-- A fresh untouched two-human match with 300 s control. -/
def gActive : Game SB :=
  { board := ⟨[]⟩, whiteTime := 300, blackTime := 300, lastUpdate := 0,
    winner := none, reason := none, bot := false, bot_color := none,
    draw_offer := none, moveCount := 0 }

/-- A match finished by white's resignation (winner "white" means black
resigned mid-game). -/
def gResigned : Game SB :=
  { board := ⟨[]⟩, whiteTime := 100, blackTime := 40, lastUpdate := 0,
    winner := some "white", reason := some "resign", bot := false,
    bot_color := none, draw_offer := none, moveCount := 7 }

/-- A match finished by checkmate, black winning. -/
def gMated : Game SB :=
  { board := ⟨[]⟩, whiteTime := 60, blackTime := 80, lastUpdate := 10,
    winner := some "black", reason := some "checkmate", bot := false,
    bot_color := none, draw_offer := none, moveCount := 12 }

/-- A match that white lost on time (white clock exactly zero). -/
def gTimedOut : Game SB :=
  { board := ⟨[]⟩, whiteTime := 0, blackTime := 120, lastUpdate := 50,
    winner := some "black", reason := some "timeout", bot := false,
    bot_color := none, draw_offer := none, moveCount := 9 }

/-- An active match, white to move, 5 s left for white, idle since t = 0. -/
def gW5 : Game SB :=
  { board := ⟨[]⟩, whiteTime := 5, blackTime := 7, lastUpdate := 0,
    winner := none, reason := none, bot := false, bot_color := none,
    draw_offer := none, moveCount := 0 }

/-- An active match, black to move (one move played), 5 s left for black. -/
def gB5 : Game SB :=
  { board := ⟨[⟨0, 1, none⟩]⟩, whiteTime := 7, blackTime := 5, lastUpdate := 0,
    winner := none, reason := none, bot := false, bot_color := none,
    draw_offer := none, moveCount := 1 }

/-- An in-progress match occupying room "R" in the registry fixtures. -/
def gInProgress : Game SB :=
  { board := ⟨[⟨0, 1, none⟩]⟩, whiteTime := 250, blackTime := 260,
    lastUpdate := 40, winner := none, reason := none, bot := false,
    bot_color := none, draw_offer := none, moveCount := 3 }

/-- A move payload whose squares map to the toy oracle's one legal move
(origin square 0, target square 1), with no promotion. -/
def dLegal : MoveData :=
  { from_row := 7, from_col := 0, to_row := 7, to_col := 1, promotion := none }

/-- A match created with a 300 s time control. -/
def g300 : Game SB := new_game sbOracle 300 false

/-- The same match after 200 s of white's thinking time are settled
(white's clock is now at 100 s). -/
def g300run : Game SB := update_time_before_move sbOracle 200 g300

/-- The same match after white then resigns. -/
def g300resigned : Game SB := (on_resign "white" g300run).1

/-- The resigned match after `on_reset_game`. -/
def g300reset : Game SB := (on_reset_game sbOracle 200 g300resigned).1

/-- Helper arithmetic facts about the zero-clamped debit `pymax 0 (t - e)`. -/
theorem clamp_nonneg (t e : ℤ) : 0 ≤ pymax 0 (t - e) := by
  unfold pymax
  split_ifs with h
  · exact le_trans (le_refl 0) h
  · exact le_refl 0

theorem clamp_le (t e : ℤ) (ht : 0 ≤ t) (he : 0 ≤ e) : pymax 0 (t - e) ≤ t := by
  unfold pymax
  split_ifs with h
  · linarith
  · exact ht

theorem clamp_eq_zero {t e : ℤ} (h : t - e ≤ 0) : pymax 0 (t - e) = 0 := by
  unfold pymax
  split_ifs with h2
  · linarith
  · rfl

theorem clamp_zero (e : ℤ) (he : 0 ≤ e) : pymax 0 ((0 : ℤ) - e) = 0 :=
  clamp_eq_zero (by linarith)

/-- A chain of non-decreasing instants can be restarted from an earlier
instant. -/
theorem chain_le_of_le {a b : ℤ} {l : List ℤ} (hba : b ≤ a)
    (h : List.Chain (fun x y => x ≤ y) a l) :
    List.Chain (fun x y => x ≤ y) b l := by
  cases l with
  | nil => exact List.Chain.nil
  | cons x xs =>
    rw [List.chain_cons] at h ⊢
    exact ⟨le_trans hba h.1, h.2⟩

/-- The clock relation composes. -/
theorem clockOk_trans {B : Type} {a b c : Game B} (h1 : clockOk a b)
    (h2 : clockOk b c) : clockOk a c :=
  ⟨h2.1, h2.2.1, le_trans h2.2.2.1 h1.2.2.1, le_trans h2.2.2.2.1 h1.2.2.2.1,
   fun h => h2.2.2.2.2.1 (h1.2.2.2.2.1 h),
   fun h => h2.2.2.2.2.2 (h1.2.2.2.2.2 h)⟩

/-!
Helper lemmas shared by the claim theorems.
-/

/-- Clock settlement touches only the clock fields and possibly the
winner/reason pair: board, counters, draw offer and bot flags survive. -/
theorem update_time_preserves_meta {B : Type} (o : Oracle B) (now : ℤ)
    (g : Game B) :
    (update_time_before_move o now g).board = g.board
      ∧ (update_time_before_move o now g).moveCount = g.moveCount
      ∧ (update_time_before_move o now g).draw_offer = g.draw_offer
      ∧ (update_time_before_move o now g).bot = g.bot
      ∧ (update_time_before_move o now g).bot_color = g.bot_color := by
  simp only [update_time_before_move]
  split_ifs <;> simp

/-- Clock settlement never changes an already-recorded winner or its
reason. -/
theorem update_time_preserves_set_winner {B : Type} (o : Oracle B) (now : ℤ)
    (g : Game B) (w : String) (hw : g.winner = some w) :
    (update_time_before_move o now g).winner = some w
      ∧ (update_time_before_move o now g).reason = g.reason := by
  simp only [update_time_before_move, winnerSet]
  split_ifs <;> simp_all

/-- C1 (code_bug evidence): on a match already finished by resignation,
`on_respond_draw` with accept=true overwrites the recorded outcome with
draw/agreement — app.py lines 665-691 never consult `g["winner"]`. -/
theorem c1_respond_draw_overwrites_finished_outcome :
    gResigned.winner = some "white" ∧ gResigned.reason = some "resign"
      ∧ (on_respond_draw true gResigned).1.winner = some "draw"
      ∧ (on_respond_draw true gResigned).1.reason = some "agreement"
      ∧ (on_respond_draw true gResigned).1.winner ≠ gResigned.winner := by
  decide

/-- C3 (code_bug evidence): the lock-discipline traces transcribed from
app.py show that not every transition holds the match guard for its accesses:
`on_resign`, `on_respond_draw` and `on_reset_game` write the outcome and
clock fields with no lock at all, and `on_move` and `bot_move` write the
winner/reason pair (in `handle_checkmate_and_draw`) after releasing the
lock; only the sweeper body runs entirely under the guard. -/
theorem c3_lock_discipline_violated :
    (transition_traces.all (fun t => t.2.all (fun a => a.underLock))) = false
      ∧ on_resign_accesses.any (fun a => a.isWrite && !a.underLock) = true
      ∧ on_respond_draw_accesses.any (fun a => a.isWrite && !a.underLock) = true
      ∧ on_reset_accesses.any (fun a => a.isWrite && !a.underLock) = true
      ∧ on_move_accesses.any
          (fun a => a.field == Field.winner && a.isWrite && !a.underLock) = true
      ∧ bot_move_accesses.any
          (fun a => a.field == Field.winner && a.isWrite && !a.underLock) = true
      ∧ timeout_watcher_accesses.all (fun a => a.underLock) = true := by
  decide

/-- C6 (counterexample): with room "R" already present and holding an
in-progress match, `on_create_room` for "R" does not report a Conflict — it
reports success and replaces the existing match state with a fresh game. -/
theorem c6_create_existing_room_overwrites :
    registry_mem [("R", gInProgress)] "R" = true
      ∧ (on_create_room sbOracle [("R", gInProgress)] "R" false 300).2
          = [Emit.roomCreated "R"]
      ∧ registry_get (on_create_room sbOracle [("R", gInProgress)] "R" false 300).1 "R"
          = some (new_game sbOracle 300 false)
      ∧ new_game sbOracle 300 false ≠ gInProgress := by
  decide

/-- C6 (amended): room creation never fails: whatever the registry holds,
`on_create_room` reports success and afterwards the registry maps the room
to the fresh game, discarding any previous match state for that room. -/
theorem c6_create_room_always_succeeds {B : Type} (o : Oracle B)
    (reg : Registry B) (room : String) (is_bot : Bool) (tc : ℤ) :
    (on_create_room o reg room is_bot tc).2 = [Emit.roomCreated room]
      ∧ registry_get (on_create_room o reg room is_bot tc).1 room
          = some (new_game o tc is_bot) := by
  refine ⟨rfl, ?_⟩
  unfold on_create_room registry_get registry_set
  rw [List.find?_cons_of_pos _ (by simp)]
  rfl

/-- C8: if an outcome is recorded while the bot task sleeps, the resumed
task (the post-sleep section of `bot_move`, lines 532-561) applies no move
and changes nothing: state and emissions are exactly the input state and the
empty list, so the recorded outcome stands. -/
theorem c8_bot_resume_aborts_when_finished {B : Type} (o : Oracle B)
    (now : ℤ) (k : Nat) (g : Game B) (w : String) (hw : g.winner = some w) :
    bot_move_phase2 o now k g = (g, [])
      ∧ (bot_move_phase2 o now k g).1.winner = some w := by
  have h : bot_move_phase2 o now k g = (g, []) := by
    unfold bot_move_phase2 winnerSet
    rw [hw]
    simp
  exact ⟨h, by rw [h, hw]⟩

/-- C8 witness: the resigned fixture match. -/
theorem c8_bot_resume_aborts_when_finished_witness :
    gResigned.winner = some "white"
      ∧ bot_move_phase2 sbOracle 5 0 gResigned = (gResigned, []) :=
  ⟨rfl, (c8_bot_resume_aborts_when_finished sbOracle 5 0 gResigned "white" rfl).1⟩

/-- C9: `on_respond_draw` never checks for a pending offer: on any active
match with no draw offer recorded, accept=true still ends the match as a
draw by agreement. -/
theorem c9_respond_draw_needs_no_pending_offer {B : Type} (g : Game B)
    (hw : g.winner = none) (ho : g.draw_offer = none) :
    (on_respond_draw true g).1.winner = some "draw"
      ∧ (on_respond_draw true g).1.reason = some "agreement" := by
  unfold on_respond_draw
  simp

/-- C9 witness: the fresh active fixture match. -/
theorem c9_respond_draw_needs_no_pending_offer_witness :
    gActive.winner = none ∧ gActive.draw_offer = none
      ∧ (on_respond_draw true gActive).1.winner = some "draw"
      ∧ (on_respond_draw true gActive).1.reason = some "agreement" :=
  ⟨rfl, rfl,
   (c9_respond_draw_needs_no_pending_offer gActive rfl rfl).1,
   (c9_respond_draw_needs_no_pending_offer gActive rfl rfl).2⟩

/-- C10: a truthy promotion string whose lower-casing is none of "q", "r",
"b", "n" silently falls back to queen promotion (the `.get(...)` default in
app.py lines 472-478). -/
theorem c10_unknown_promotion_defaults_to_queen (s : String) (d : MoveData)
    (hne : s ≠ "")
    (hmem : pyLower s ∉ (["q", "r", "b", "n"] : List String)) :
    (build_move { d with promotion := some s }).promotion = some QUEEN := by
  simp only [List.mem_cons, List.mem_singleton, not_or] at hmem
  obtain ⟨hq, hr, hb, hn⟩ := hmem
  unfold build_move truthyStr
  simp [hne, hq, hr, hb, hn]

/-- C10 witness: promotion string "k" (not a recognised piece letter)
yields a queen promotion. -/
theorem c10_unknown_promotion_defaults_to_queen_witness :
    ("k" : String) ≠ ""
      ∧ pyLower "k" ∉ (["q", "r", "b", "n"] : List String)
      ∧ (build_move { dLegal with promotion := some "k" }).promotion
          = some QUEEN :=
  ⟨by decide, by decide,
   c10_unknown_promotion_defaults_to_queen "k" dLegal (by decide) (by decide)⟩

/-- One clock-settling path preserves the clock relation, never raises a
clock and leaves `lastUpdate` at or below `now`. -/
theorem settle_clockOk {B : Type} (o : Oracle B) (op : SettleOp) (now : ℤ)
    (g : Game B) (hl : g.lastUpdate ≤ now) (hw : 0 ≤ g.whiteTime)
    (hb : 0 ≤ g.blackTime) :
    clockOk g (applySettle o op now g)
      ∧ (applySettle o op now g).lastUpdate ≤ now := by
  have he : 0 ≤ now - g.lastUpdate := by linarith
  cases op with
  | preMove =>
    simp only [applySettle, update_time_before_move]
    split_ifs <;>
      first
        | exact ⟨⟨clamp_nonneg _ _, hb, clamp_le _ _ hw he, le_refl _,
            fun h0 => by simp only [h0]; exact clamp_zero _ he, fun h0 => h0⟩,
            le_refl _⟩
        | exact ⟨⟨hw, clamp_nonneg _ _, le_refl _, clamp_le _ _ hb he,
            fun h0 => h0,
            fun h0 => by simp only [h0]; exact clamp_zero _ he⟩, le_refl _⟩
  | sweeperTick =>
    simp only [applySettle, timeout_watcher_step]
    split_ifs <;>
      first
        | exact ⟨⟨hw, hb, le_refl _, le_refl _, fun h0 => h0, fun h0 => h0⟩,
            hl⟩
        | exact ⟨⟨le_refl 0, hb, hw, le_refl _, fun h0 => rfl, fun h0 => h0⟩,
            hl⟩
        | exact ⟨⟨hw, le_refl 0, le_refl _, hb, fun h0 => h0, fun h0 => rfl⟩,
            hl⟩
        | exact ⟨⟨clamp_nonneg _ _, hb, clamp_le _ _ hw he, le_refl _,
            fun h0 => by simp only [h0]; exact clamp_zero _ he, fun h0 => h0⟩,
            le_refl _⟩
        | exact ⟨⟨hw, clamp_nonneg _ _, le_refl _, clamp_le _ _ hb he,
            fun h0 => h0,
            fun h0 => by simp only [h0]; exact clamp_zero _ he⟩, le_refl _⟩
  | getTime =>
    simp only [applySettle, on_get_time]
    split_ifs <;>
      first
        | exact ⟨⟨hw, hb, le_refl _, le_refl _, fun h0 => h0, fun h0 => h0⟩,
            hl⟩
        | exact ⟨⟨clamp_nonneg _ _, hb, clamp_le _ _ hw he, le_refl _,
            fun h0 => by simp only [h0]; exact clamp_zero _ he, fun h0 => h0⟩,
            le_refl _⟩
        | exact ⟨⟨hw, clamp_nonneg _ _, le_refl _, clamp_le _ _ hb he,
            fun h0 => h0,
            fun h0 => by simp only [h0]; exact clamp_zero _ he⟩, le_refl _⟩

/-- C5: along any sequence of settle operations (pre-move settlement,
sweeper tick, on-demand query) at non-decreasing wall-clock instants,
neither remaining time ever becomes negative, neither remaining time
increases, and a remaining time that is exactly zero stays zero. -/
theorem c5_clocks_never_negative_never_credited {B : Type} (o : Oracle B)
    (g : Game B) (ops : List (SettleOp × ℤ)) (hw : 0 ≤ g.whiteTime)
    (hb : 0 ≤ g.blackTime)
    (hc : List.Chain (fun x y => x ≤ y) g.lastUpdate (ops.map Prod.snd)) :
    clockOk g (applySettles o ops g) := by
  induction ops generalizing g with
  | nil => exact ⟨hw, hb, le_refl _, le_refl _, fun h => h, fun h => h⟩
  | cons op rest ih =>
    rw [List.map_cons, List.chain_cons] at hc
    have hstep := settle_clockOk o op.1 op.2 g hc.1 hw hb
    have hrest := ih (applySettle o op.1 op.2 g) hstep.1.1 hstep.1.2.1
      (chain_le_of_le hstep.2 hc.2)
    exact clockOk_trans hstep.1 hrest

/-- C5 witness: a settlement, a sweeper tick and a query at instants
10, 20, 30 on the fresh fixture match. -/
theorem c5_clocks_never_negative_never_credited_witness :
    0 ≤ gActive.whiteTime ∧ 0 ≤ gActive.blackTime
      ∧ List.Chain (fun x y => x ≤ y) gActive.lastUpdate [10, 20, 30]
      ∧ clockOk gActive
          (applySettles sbOracle
            [(SettleOp.preMove, 10), (SettleOp.sweeperTick, 20),
             (SettleOp.getTime, 30)] gActive) :=
  ⟨by decide, by decide,
   List.Chain.cons (by decide)
     (List.Chain.cons (by decide) (List.Chain.cons (by decide) List.Chain.nil)),
   c5_clocks_never_negative_never_credited sbOracle gActive
     [(SettleOp.preMove, 10), (SettleOp.sweeperTick, 20),
      (SettleOp.getTime, 30)] (by decide) (by decide)
     (List.Chain.cons (by decide)
       (List.Chain.cons (by decide)
         (List.Chain.cons (by decide) List.Chain.nil)))⟩

/-- C2 (counterexample): resetting a match that white lost on time yields
an active match whose side to move has remaining time exactly 0; one second
later the sweeper's check does NOT record a timeout (its zero-crossing test
requires the stored time to be strictly positive), while the on-demand
query path does — so the claim fails at remaining time zero and the two
paths disagree there. -/
theorem c2_sweeper_misses_timeout_at_zero_clock :
    (on_reset_game sbOracle 50 gTimedOut).1.winner = none
      ∧ (on_reset_game sbOracle 50 gTimedOut).1.whiteTime = 0
      ∧ sbOracle.turn (on_reset_game sbOracle 50 gTimedOut).1.board = true
      ∧ (timeout_watcher_step sbOracle 51
          (on_reset_game sbOracle 50 gTimedOut).1).1.winner = none
      ∧ (on_get_time sbOracle 51
          (on_reset_game sbOracle 50 gTimedOut).1).1.winner = some "black" := by
  decide

/-- C2 (amended): for an active match whose side to move has STRICTLY
POSITIVE remaining time `r`, if the elapsed time since the last settlement
is at least `r` then both the sweeper tick and the on-demand query set that
side's clock to exactly zero and record the timeout outcome with the
opposite side as winner; and on a match whose outcome is already set,
either path leaves the state unchanged. -/
theorem c2_timeout_paths_agree_on_positive_clock {B : Type} (o : Oracle B)
    (now : ℤ) (g : Game B) :
    (g.winner = none → o.turn g.board = true → 0 < g.whiteTime →
        g.whiteTime ≤ now - g.lastUpdate →
        timeout_watcher_step o now g
          = ({ g with whiteTime := 0, winner := some "black", reason := some "timeout" }, [Emit.gameUpdate]))
      ∧ (g.winner = none → o.turn g.board = false → 0 < g.blackTime →
          g.blackTime ≤ now - g.lastUpdate →
          timeout_watcher_step o now g
            = ({ g with blackTime := 0, winner := some "white", reason := some "timeout" }, [Emit.gameUpdate]))
      ∧ (g.winner = none → o.turn g.board = true → 0 < g.whiteTime →
          g.whiteTime ≤ now - g.lastUpdate →
          (on_get_time o now g).1
            = { g with lastUpdate := now, whiteTime := 0, winner := some "black", reason := some "timeout" })
      ∧ (g.winner = none → o.turn g.board = false → 0 < g.blackTime →
          g.blackTime ≤ now - g.lastUpdate →
          (on_get_time o now g).1
            = { g with lastUpdate := now, blackTime := 0, winner := some "white", reason := some "timeout" })
      ∧ (∀ w, g.winner = some w → timeout_watcher_step o now g = (g, []))
      ∧ (∀ w, g.winner = some w → (on_get_time o now g).1 = g) := by
  refine ⟨?_, ?_, ?_, ?_, ?_, ?_⟩
  · intro h1 h2 h3 h4
    have hmax : pymax 0 (g.whiteTime - (now - g.lastUpdate)) = 0 :=
      clamp_eq_zero (by linarith)
    simp [timeout_watcher_step, winnerSet, h1, h2, hmax, h3]
  · intro h1 h2 h3 h4
    have hmax : pymax 0 (g.blackTime - (now - g.lastUpdate)) = 0 :=
      clamp_eq_zero (by linarith)
    simp [timeout_watcher_step, winnerSet, h1, h2, hmax, h3]
  · intro h1 h2 h3 h4
    have hmax : pymax 0 (g.whiteTime - (now - g.lastUpdate)) = 0 :=
      clamp_eq_zero (by linarith)
    simp [on_get_time, winnerSet, h1, h2, hmax]
  · intro h1 h2 h3 h4
    have hmax : pymax 0 (g.blackTime - (now - g.lastUpdate)) = 0 :=
      clamp_eq_zero (by linarith)
    simp [on_get_time, winnerSet, h1, h2, hmax]
  · intro w hw
    simp [timeout_watcher_step, winnerSet, hw]
  · intro w hw
    simp [on_get_time, winnerSet, hw]

/-- C2 witness: white flagged by the sweeper and (on a second fixture) the
query path; black symmetric; the finished fixture is left untouched by
both paths. -/
theorem c2_timeout_paths_agree_on_positive_clock_witness :
    (timeout_watcher_step sbOracle 6 gW5
        = ({ gW5 with whiteTime := 0, winner := some "black", reason := some "timeout" }, [Emit.gameUpdate]))
      ∧ (timeout_watcher_step sbOracle 6 gB5
          = ({ gB5 with blackTime := 0, winner := some "white", reason := some "timeout" }, [Emit.gameUpdate]))
      ∧ ((on_get_time sbOracle 6 gW5).1
          = { gW5 with lastUpdate := 6, whiteTime := 0, winner := some "black", reason := some "timeout" })
      ∧ ((on_get_time sbOracle 6 gB5).1
          = { gB5 with lastUpdate := 6, blackTime := 0, winner := some "white", reason := some "timeout" })
      ∧ timeout_watcher_step sbOracle 51 gTimedOut = (gTimedOut, [])
      ∧ (on_get_time sbOracle 51 gTimedOut).1 = gTimedOut :=
  ⟨(c2_timeout_paths_agree_on_positive_clock sbOracle 6 gW5).1 rfl rfl
      (by decide) (by decide),
   (c2_timeout_paths_agree_on_positive_clock sbOracle 6 gB5).2.1 rfl rfl
      (by decide) (by decide),
   (c2_timeout_paths_agree_on_positive_clock sbOracle 6 gW5).2.2.1 rfl rfl
      (by decide) (by decide),
   (c2_timeout_paths_agree_on_positive_clock sbOracle 6 gB5).2.2.2.1 rfl rfl
      (by decide) (by decide),
   (c2_timeout_paths_agree_on_positive_clock sbOracle 51 gTimedOut).2.2.2.2.1
      "black" rfl,
   (c2_timeout_paths_agree_on_positive_clock sbOracle 51 gTimedOut).2.2.2.2.2
      "black" rfl⟩

/-- C4 (counterexample): on a match already finished by checkmate, a draw
response with accept=true is NOT rejected: it mutates the match (the
outcome becomes draw/agreement) and emits a broadcast, not an error. -/
theorem c4_respond_draw_not_rejected_when_finished :
    winnerSet gMated = true
      ∧ (on_respond_draw true gMated).1 ≠ gMated
      ∧ (on_respond_draw true gMated).1.winner = some "draw"
      ∧ (on_respond_draw true gMated).2 = [Emit.gameUpdate] := by
  decide

/-- C4 (amended): on a finished match, a submitted move is rejected with an
explicit error report and leaves outcome, board, draw offer and move
counter unchanged (the clock is still settled first); resignation and a
draw offer leave the state entirely unchanged but are silently ignored —
no report is sent. -/
theorem c4_finished_match_transitions {B : Type} (o : Oracle B) (now : ℤ)
    (d : MoveData) (g : Game B) (color fc : String) (w : String)
    (hw : g.winner = some w) :
    on_move o now d g
        = (update_time_before_move o now g,
           [Emit.errorMsg "Game already finished"], false)
      ∧ (update_time_before_move o now g).winner = g.winner
      ∧ (update_time_before_move o now g).reason = g.reason
      ∧ (update_time_before_move o now g).board = g.board
      ∧ (update_time_before_move o now g).draw_offer = g.draw_offer
      ∧ (update_time_before_move o now g).moveCount = g.moveCount
      ∧ on_resign color g = (g, [])
      ∧ on_offer_draw fc g = (g, []) := by
  have hw2 := update_time_preserves_set_winner o now g w hw
  have hm := update_time_preserves_meta o now g
  have hset : winnerSet (update_time_before_move o now g) = true := by
    unfold winnerSet
    rw [hw2.1]
    rfl
  refine ⟨?_, by rw [hw, hw2.1], hw2.2, hm.1, hm.2.2.1, hm.2.1, ?_, ?_⟩
  · simp [on_move, hset]
  · simp [on_resign, winnerSet, hw]
  · simp [on_offer_draw, winnerSet, hw]

/-- C4 witness: the checkmated fixture match. -/
theorem c4_finished_match_transitions_witness :
    gMated.winner = some "black"
      ∧ on_resign "white" gMated = (gMated, [])
      ∧ on_offer_draw "white" gMated = (gMated, []) :=
  ⟨rfl,
   (c4_finished_match_transitions sbOracle 20 dLegal gMated "white" "white"
      "black" rfl).2.2.2.2.2.2.1,
   (c4_finished_match_transitions sbOracle 20 dLegal gMated "white" "white"
      "black" rfl).2.2.2.2.2.2.2⟩

/-- C7 (code_bug evidence): a match configured with a 300 s control, in
which white's clock has run down to 100 s before white resigns, is reset to
an active state with fresh board, cleared outcome/offer/counter — but BOTH
clocks read 100 s, white's remaining at reset time, not the configured
300 s (`on_reset_game` reads `time_control` from the current
`g["whiteTime"]`).  A legal first move is then accepted. -/
theorem c7_reset_restores_current_white_time_not_configured :
    g300.whiteTime = 300 ∧ g300.blackTime = 300
      ∧ g300resigned.winner = some "black"
      ∧ g300resigned.reason = some "resign"
      ∧ g300reset.winner = none ∧ g300reset.reason = none
      ∧ g300reset.draw_offer = none ∧ g300reset.moveCount = 0
      ∧ g300reset.board = sbOracle.initial
      ∧ g300reset.whiteTime = 100 ∧ g300reset.blackTime = 100
      ∧ ¬ g300reset.whiteTime = 300
      ∧ (on_move sbOracle 200 dLegal g300reset).2.1 = [Emit.gameUpdate]
      ∧ (on_move sbOracle 200 dLegal g300reset).1.moveCount = 1 := by
  decide

end ChessApp
